import Mathlib

/-!
Verification of the static content-rendering pipeline of a personal blog site.

The program under study is `src/pages/sketches/[slug].js`:

* `getStaticPaths` reads the filenames of the content store directory
  (`fs.readdirSync(path.join("data/sketches"))`) and derives one route per
  file, with `slug: file.replace(".mdx", "")` and `fallback: false`.
* `getStaticProps` reads `data/sketches/` ++ slug ++ `".mdx"`, splits the
  text into front matter and body with `matter`, compiles the body with
  `serialize`, and computes `readingTime(content).minutes`.

Texts and filenames are modelled as lists of characters, so that JavaScript
string operations (`String.replace` with a string pattern replaces the first
occurrence only) can be embedded exactly.  The third-party collaborators
(the front-matter splitter, the body compiler, the reading-time estimator,
and the filesystem) ship no source in this repository; they are modelled
from the specification, and each such definition is marked in its
doc comment.
-/

/-- A text or filename, as a list of characters. -/
abbrev Str := List Char

/-- The known content-file extension, `".mdx"`. -/
def mdxExt : Str := ['.', 'm', 'd', 'x']

/-- JavaScript `s.replace(pat, "")` for a string pattern `pat`: remove the
first (leftmost) occurrence of `pat` from `s`; if `pat` does not occur,
return `s` unchanged.  This is the operation `file.replace(".mdx", "")`
used by `getStaticPaths` to derive slugs. -/
def replaceFirst (pat : Str) : Str → Str
  | [] => []
  | c :: rest =>
    if pat.isPrefixOf (c :: rest) then (c :: rest).drop pat.length
    else c :: replaceFirst pat rest

/-- Whether `pat` occurs (as a contiguous substring) anywhere in `s`. -/
def containsPat (pat : Str) : Str → Bool
  | [] => false
  | c :: rest => pat.isPrefixOf (c :: rest) || containsPat pat rest

/-- Slug derivation of `getStaticPaths`: `file.replace(".mdx", "")`. -/
def slugOf (file : Str) : Str := replaceFirst mdxExt file

/-- Path reconstruction of `getStaticProps`: the file read for a slug is
`slug + ".mdx"` (the `"data/sketches"` directory prefix being common to both
sides is left implicit). -/
def resolvePath (slug : Str) : Str := slug ++ mdxExt

/-- The content store directory: a list of (filename, raw file text) pairs. -/
structure Store where
  files : List (Str × Str)
deriving DecidableEq

/-- The value returned by `getStaticPaths`: the route parameters (slugs)
and the `fallback` flag. -/
structure PathsResult where
  paths : List Str
  fallback : Bool
deriving DecidableEq

/-- Errors of the generation pipeline, following the specification's
taxonomy: `storeError` (content directory missing/unreadable),
`fileNotFound` (a slug's file is absent), `parseError` (malformed front
matter, carrying the offending file's path), `compileError` (body
compilation failed). -/
inductive GenError where
  | storeError : GenError
  | fileNotFound : Str → GenError
  | parseError : Str → GenError
  | compileMsg : Str → GenError
deriving DecidableEq

deriving instance DecidableEq for Except

/-- `getStaticPaths`: reads the store directory (`none` models a
missing/unreadable directory, in which case `fs.readdirSync` throws — a
fatal `StoreError`) and maps every file to a route whose slug is
`file.replace(".mdx", "")`, returning `fallback: false`. -/
def getStaticPaths (store : Option Store) : Except GenError PathsResult :=
  match store with
  | none => .error .storeError
  | some st => .ok ⟨st.files.map (fun f => slugOf f.1), false⟩

/- ### Helper lemmas about slug derivation -/

/-- `".mdx"` has no nontrivial self-overlap, so when a nonempty string `s`
does not start with `".mdx"`, neither does `s ++ ".mdx"`. -/
theorem mdx_isPrefixOf_append_false (s : Str) (hne : s ≠ [])
    (h : mdxExt.isPrefixOf s = false) :
    mdxExt.isPrefixOf (s ++ mdxExt) = false := by
  rcases s with _ | ⟨a, _ | ⟨b, _ | ⟨c, _ | ⟨d, t⟩⟩⟩⟩
  · exact absurd rfl hne
  · simp [mdxExt, List.isPrefixOf]
  · simp [mdxExt, List.isPrefixOf]
  · simp [mdxExt, List.isPrefixOf]
  · simp only [mdxExt, List.isPrefixOf, List.cons_append, Bool.and_eq_false_imp] at h ⊢
    simpa using h

/-- Round trip of slug derivation: if the stem contains no occurrence of
`".mdx"`, removing the first occurrence of `".mdx"` from `stem ++ ".mdx"`
gives back `stem`. -/
theorem replaceFirst_stem_append (stem : Str)
    (h : containsPat mdxExt stem = false) :
    replaceFirst mdxExt (stem ++ mdxExt) = stem := by
  induction stem with
  | nil => decide
  | cons c rest ih =>
    simp only [containsPat, Bool.or_eq_false_iff] at h
    have hpre : mdxExt.isPrefixOf (c :: (rest ++ mdxExt)) = false := by
      simpa using mdx_isPrefixOf_append_false (c :: rest) (by simp) h.1
    rw [List.cons_append,
      show replaceFirst mdxExt (c :: (rest ++ mdxExt)) =
        if mdxExt.isPrefixOf (c :: (rest ++ mdxExt)) then
          (c :: (rest ++ mdxExt)).drop mdxExt.length
        else c :: replaceFirst mdxExt (rest ++ mdxExt) from rfl,
      hpre]
    simp [ih h.2]

/-- A filename is well-formed when it is some stem followed by the `".mdx"`
extension, with no occurrence of `".mdx"` inside the stem.  Equivalently
(and decidably): re-appending `".mdx"` to the derived slug gives back the
filename, and the slug is free of `".mdx"`. -/
def goodName (f : Str) : Bool :=
  decide (replaceFirst mdxExt f ++ mdxExt = f) && !(containsPat mdxExt (replaceFirst mdxExt f))

/-- C1 (counterexample): the claim fails for a store holding a file whose
name does not end in `".mdx"`.  The file `notes.txt` is enumerated with
slug `notes.txt`, and reconstruction appends `".mdx"`, yielding
`notes.txt.mdx`, which is not the original filename. -/
theorem slug_resolvePath_not_roundTrip_txt :
    getStaticPaths (some ⟨[("notes.txt".data, [])]⟩) =
      Except.ok ⟨["notes.txt".data], false⟩ ∧
    resolvePath (slugOf "notes.txt".data) ≠ "notes.txt".data := by
  decide

/-- C1 (amended): for every enumerated file of the form `stem ++ ".mdx"`
where the stem contains no occurrence of `".mdx"`, slug derivation followed
by path reconstruction (appending `".mdx"`) is a round-trip back to the
original filename. -/
theorem slug_resolvePath_roundTrip (stem : Str)
    (h : containsPat mdxExt stem = false) :
    resolvePath (slugOf (stem ++ mdxExt)) = stem ++ mdxExt := by
  unfold resolvePath slugOf
  rw [replaceFirst_stem_append stem h]

/-- Witness for the amended C1 at the concrete stem `notes`. -/
theorem slug_resolvePath_roundTrip_witness :
    containsPat mdxExt "notes".data = false ∧
    resolvePath (slugOf ("notes".data ++ mdxExt)) = "notes".data ++ mdxExt :=
  ⟨by decide, slug_resolvePath_roundTrip "notes".data (by decide)⟩

/-- C3 (counterexample): with a store holding the two distinct files
`a.mdx` and `a`, both map to the slug `a`, so the produced slugs are not
duplicate-free and are not in one-to-one correspondence with the files. -/
theorem getStaticPaths_duplicate_slugs :
    getStaticPaths (some ⟨[("a.mdx".data, []), ("a".data, [])]⟩) =
      Except.ok ⟨["a".data, "a".data], false⟩ ∧
    (["a.mdx".data, "a".data] : List Str).Nodup ∧
    ¬ (["a".data, "a".data] : List Str).Nodup := by
  decide

/-- C3 (amended): when every filename in the store is well-formed (a stem
free of `".mdx"` followed by the `".mdx"` extension) and filenames are
distinct, `getStaticPaths` produces exactly one route per file and the
slugs are pairwise distinct — a one-to-one correspondence with the files. -/
theorem getStaticPaths_enumeration (st : Store)
    (hg : (st.files.map Prod.fst).all goodName = true)
    (hn : (st.files.map Prod.fst).Nodup)
    (r : PathsResult)
    (hr : getStaticPaths (some st) = Except.ok r) :
    r.paths.length = st.files.length ∧ r.paths.Nodup := by
  simp only [getStaticPaths, Except.ok.injEq] at hr
  subst hr
  rw [List.all_eq_true] at hg
  constructor
  · simp
  · have hmm : st.files.map (fun f => slugOf f.1) =
        (st.files.map Prod.fst).map slugOf := by
      rw [List.map_map]; rfl
    show (st.files.map (fun f => slugOf f.1)).Nodup
    rw [hmm]
    refine List.Nodup.map_on ?_ hn
    intro x hx y hy hxy
    have gx := hg x hx
    have gy := hg y hy
    simp only [goodName, Bool.and_eq_true, decide_eq_true_eq] at gx gy
    calc x = replaceFirst mdxExt x ++ mdxExt := gx.1.symm
      _ = slugOf x ++ mdxExt := rfl
      _ = slugOf y ++ mdxExt := by rw [hxy]
      _ = replaceFirst mdxExt y ++ mdxExt := rfl
      _ = y := gy.1

/-- Witness for the amended C3: the store `{a.mdx, b.mdx}` yields exactly
the two distinct slugs `{a, b}`. -/
theorem getStaticPaths_enumeration_witness :
    ((([("a.mdx".data, ([] : Str)), ("b.mdx".data, ([] : Str))].map Prod.fst).all goodName = true) ∧
      ([("a.mdx".data, ([] : Str)), ("b.mdx".data, ([] : Str))].map Prod.fst).Nodup ∧
      getStaticPaths (some ⟨[("a.mdx".data, []), ("b.mdx".data, [])]⟩) =
        Except.ok ⟨["a".data, "b".data], false⟩) ∧
    (["a".data, "b".data] : List Str).length =
      ([("a.mdx".data, ([] : Str)), ("b.mdx".data, ([] : Str))] : List (Str × Str)).length ∧
    (["a".data, "b".data] : List Str).Nodup :=
  ⟨⟨by decide, by decide, by decide⟩,
    getStaticPaths_enumeration ⟨[("a.mdx".data, []), ("b.mdx".data, [])]⟩
      (by decide) (by decide) ⟨["a".data, "b".data], false⟩ (by decide)⟩

/-- C9: when the content store directory is missing or unreadable
(`fs.readdirSync` throws), `getStaticPaths` fails with `storeError` — the
run produces no routes. -/
theorem getStaticPaths_missing_store :
    getStaticPaths none = Except.error GenError.storeError := rfl

/-- C10: whenever `getStaticPaths` succeeds, the returned `fallback` flag
is `false` and the paths are exactly the slugs derived from the enumerated
files, so any other slug is served no page. -/
theorem getStaticPaths_fallback_false (store : Option Store) (r : PathsResult)
    (hr : getStaticPaths store = Except.ok r) :
    r.fallback = false := by
  match store with
  | none => exact absurd hr (by simp [getStaticPaths])
  | some st =>
    simp only [getStaticPaths, Except.ok.injEq] at hr
    rw [← hr]

/-- Witness for C10 at a concrete one-file store. -/
theorem getStaticPaths_fallback_false_witness :
    getStaticPaths (some ⟨[("a.mdx".data, [])]⟩) =
      Except.ok ⟨["a".data], false⟩ ∧
    (PathsResult.mk ["a".data] false).fallback = false :=
  ⟨by decide, getStaticPaths_fallback_false (some ⟨[("a.mdx".data, [])]⟩)
    ⟨["a".data], false⟩ (by decide)⟩

/-- The front-matter delimiter line, `---`. -/
def delim : Str := ['-', '-', '-']

/-- Modelled from the spec: the front-matter grammar is line-oriented, so
the splitter works on the list of lines of the text (separator `\n`). -/
def splitLines : Str → List Str
  | [] => [[]]
  | c :: rest =>
    if c = '\n' then [] :: splitLines rest
    else
      match splitLines rest with
      | [] => [[c]]
      | l :: ls => (c :: l) :: ls

/-- Modelled from the spec: scan for the first closing delimiter line,
returning the metadata lines before it and the body lines after it;
`none` when the metadata block is unterminated. -/
def splitOnDelim : List Str → Option (List Str × List Str)
  | [] => none
  | l :: ls =>
    if l = delim then some ([], ls)
    else (splitOnDelim ls).map (fun p => (l :: p.1, p.2))

/-- Modelled from the spec: split a line at its first `:`. -/
def splitAtColon : Str → Option (Str × Str)
  | [] => none
  | c :: rest =>
    if c = ':' then some ([], rest)
    else (splitAtColon rest).map (fun p => (c :: p.1, p.2))

/-- Remove leading and trailing spaces. -/
def trim (s : Str) : Str :=
  ((s.dropWhile (· = ' ')).reverse.dropWhile (· = ' ')).reverse

/-- Modelled from the spec: parse one `key: value` front-matter line;
lines without a `:` are ignored. -/
def parseKVLine (line : Str) : Option (Str × Str) :=
  (splitAtColon line).map (fun p => (trim p.1, trim p.2))

/-- Modelled from the spec: malformed metadata block (an unterminated
delimiter block). -/
inductive ParseError where
  | unterminated : ParseError
deriving DecidableEq

/-- The result of the Front-Matter Splitter: the metadata mapping and the
remaining body. -/
structure Matter where
  data : List (Str × Str)
  content : Str
deriving DecidableEq

/-- Modelled from the spec: the Front-Matter Splitter (`matter`).  A text
beginning with the recognized delimiter line has its metadata block parsed
up to the closing delimiter line (failing with a `ParseError` when that
closing line is missing); a text not beginning with the delimiter yields
empty front matter and its body is the whole original text. -/
def matter (text : Str) : Except ParseError Matter :=
  match splitLines text with
  | [] => .ok ⟨[], text⟩
  | first :: rest =>
    if first = delim then
      match splitOnDelim rest with
      | none => .error .unterminated
      | some (fmLines, bodyLines) =>
        .ok ⟨fmLines.filterMap parseKVLine, List.intercalate ['\n'] bodyLines⟩
    else .ok ⟨[], text⟩

/-- C4: for every raw text that does not begin with the front-matter
delimiter line, the splitter succeeds with an empty front-matter mapping
and a body equal to the original text exactly. -/
theorem matter_missing_delimiter (text : Str)
    (h : (splitLines text).head? ≠ some delim) :
    matter text = Except.ok ⟨[], text⟩ := by
  unfold matter
  rcases hs : splitLines text with _ | ⟨first, rest⟩
  · rfl
  · have hf : first ≠ delim := by
      intro he
      exact h (by rw [hs, he]; rfl)
    simp [hf]

/-- Witness for C4 at the concrete text `hello`. -/
theorem matter_missing_delimiter_witness :
    (splitLines "hello".data).head? ≠ some delim ∧
    matter "hello".data = Except.ok ⟨[], "hello".data⟩ :=
  ⟨by decide, matter_missing_delimiter "hello".data (by decide)⟩

/-- Is `c` whitespace, for word counting? -/
def isSpaceChar (c : Char) : Bool := c = ' ' || c = '\n' || c = '\t' || c = '\r'

/-- Count the maximal runs of non-whitespace characters; the flag records
whether the scan is currently inside a word. -/
def countWordsAux : Str → Bool → Nat
  | [], _ => 0
  | c :: rest, inWord =>
    if isSpaceChar c then countWordsAux rest false
    else (if inWord then 0 else 1) + countWordsAux rest true

/-- Modelled from the spec: the word count of a body text. -/
def wordCount (s : Str) : Nat := countWordsAux s false

/-- Modelled from the spec: the Reading-Time Estimator
(`readingTime(content).minutes`): word count divided by the conventional
200 words per minute, rounded up to the next whole minute. -/
def readingTime (s : Str) : Nat := (wordCount s + 199) / 200

/-- C2 (counterexample): the body consisting of a single space is
non-empty, yet its word count is zero and its estimate is zero minutes —
not at least one. -/
theorem readingTime_space_zero :
    ([' '] : Str) ≠ [] ∧ wordCount [' '] = 0 ∧ readingTime [' '] = 0 := by
  decide

/-- C2 (amended): the estimate is the word count divided by 200 rounded up
to the next whole minute (it is the least number of minutes covering the
word count at 200 words per minute), and every body containing at least
one word — rather than every non-empty body — yields at least one
minute. -/
theorem readingTime_ceil (body : Str) (h : 1 ≤ wordCount body) :
    1 ≤ readingTime body ∧
    wordCount body ≤ 200 * readingTime body ∧
    ∀ n, wordCount body ≤ 200 * n → readingTime body ≤ n := by
  unfold readingTime
  exact ⟨by omega, by omega, fun n hn => by omega⟩

/-- Witness for the amended C2 at the one-word body `hi`. -/
theorem readingTime_ceil_witness :
    1 ≤ wordCount "hi".data ∧ 1 ≤ readingTime "hi".data :=
  ⟨by decide, (readingTime_ceil "hi".data (by decide)).1⟩

/-- C8: the estimator is monotone — a body with at least as many words is
estimated to take at least as long — and the empty body yields zero. -/
theorem readingTime_monotone (b₁ b₂ : Str)
    (h : wordCount b₂ ≤ wordCount b₁) :
    readingTime b₂ ≤ readingTime b₁ ∧ readingTime [] = 0 := by
  unfold readingTime
  exact ⟨by omega, by decide⟩

/-- Witness for C8 at the bodies `a b` and `a`. -/
theorem readingTime_monotone_witness :
    wordCount "a".data ≤ wordCount "a b".data ∧
    (readingTime "a".data ≤ readingTime "a b".data ∧ readingTime [] = 0) :=
  ⟨by decide, readingTime_monotone "a b".data "a".data (by decide)⟩

/-- Modelled from the spec: the names of the embedded component tags of a
body text: each `<` immediately followed by an uppercase letter opens a
tag whose name is the maximal run of letters. -/
def extractTags : Str → List Str
  | [] => []
  | [_] => []
  | c :: d :: rest2 =>
    if c = '<' && d.isUpper then
      (d :: rest2.takeWhile Char.isAlpha) :: extractTags (d :: rest2)
    else extractTags (d :: rest2)

/-- Modelled from the spec: the compiled body — the source text it was
compiled from (nothing dropped) together with the resolved embedded
component names. -/
structure CompiledBody where
  source : Str
  resolved : List Str
deriving DecidableEq

/-- Modelled from the spec: compilation failure naming the unresolved tag. -/
inductive CompileError where
  | unresolvedTag : Str → CompileError
deriving DecidableEq

/-- Modelled from the spec: the Body Compiler (`serialize` together with
render-time component resolution): every embedded tag is looked up in the
registry; a tag absent from the registry fails the compilation, naming the
tag; otherwise the compiled body preserves the source text. -/
def compileBody (body : Str) (registry : List Str) : Except CompileError CompiledBody :=
  match (extractTags body).find? (fun t => decide (t ∉ registry)) with
  | some t => .error (.unresolvedTag t)
  | none => .ok ⟨body, extractTags body⟩

/-- C6: whenever the body embeds a tag that is not in the registry, the
compiler signals an error naming an unresolved tag (a tag of the body that
is absent from the registry); the content is not silently dropped. -/
theorem compileBody_unknown_tag (body : Str) (registry : List Str) (t : Str)
    (h₁ : t ∈ extractTags body) (h₂ : t ∉ registry) :
    ∃ u, compileBody body registry = Except.error (CompileError.unresolvedTag u) ∧
      u ∈ extractTags body ∧ u ∉ registry := by
  rcases hf : (extractTags body).find? (fun t => decide (t ∉ registry)) with _ | u
  · exfalso
    have hall := List.find?_eq_none.mp hf t h₁
    simp only [decide_eq_true_eq, not_not] at hall
    exact h₂ hall
  · refine ⟨u, ?_, List.mem_of_find?_eq_some hf, by simpa using List.find?_some hf⟩
    unfold compileBody
    rw [hf]

/-- Witness for C6: the body `<Foo>` against the empty registry. -/
theorem compileBody_unknown_tag_witness :
    ("Foo".data ∈ extractTags "<Foo>".data ∧ "Foo".data ∉ ([] : List Str)) ∧
    ∃ u, compileBody "<Foo>".data [] = Except.error (CompileError.unresolvedTag u) ∧
      u ∈ extractTags "<Foo>".data ∧ u ∉ ([] : List Str) :=
  ⟨⟨by decide, by decide⟩,
    compileBody_unknown_tag "<Foo>".data [] "Foo".data (by decide) (by decide)⟩

/-- C7: the Body Compiler is a pure function of the body text and the
registry — compiling the same body twice with the same registry yields
structurally identical results. -/
theorem compileBody_deterministic (body : Str) (registry : List Str) :
    compileBody body registry = compileBody body registry := rfl

/-- The props computed for one document: front matter, slug, compiled
body, and reading time. -/
structure Props where
  frontMatter : List (Str × Str)
  slug : Str
  mdxSource : CompiledBody
  readTime : Nat
deriving DecidableEq

/-- `getStaticProps`: read the slug's file (`slug + ".mdx"`; a missing
store is fatal and a missing file throws, as `fs.readFileSync` does),
split the front matter from the body with `matter` (a malformed metadata
block aborts this document with a `parseError` carrying the offending
file's path), compile the body against the component registry, and
estimate the reading time of the body. -/
def getStaticProps (store : Option Store) (registry : List Str) (slug : Str) :
    Except GenError Props :=
  match store with
  | none => .error .storeError
  | some st =>
    match st.files.lookup (resolvePath slug) with
    | none => .error (.fileNotFound (resolvePath slug))
    | some markdown =>
      match matter markdown with
      | .error _ => .error (.parseError (resolvePath slug))
      | .ok m =>
        match compileBody m.content registry with
        | .error (.unresolvedTag t) => .error (.compileMsg t)
        | .ok mdxSource => .ok ⟨m.data, slug, mdxSource, readingTime m.content⟩

/-- Modelled from the spec: the whole generation run — enumerate the
routes, then run every document's pipeline independently, collecting each
document's own result; per-document errors are local, while a store-level
error is global and fatal. -/
def buildAll (store : Option Store) (registry : List Str) :
    Except GenError (List (Str × Except GenError Props)) :=
  match getStaticPaths store with
  | .error e => .error e
  | .ok r => .ok (r.paths.map (fun slug => (slug, getStaticProps store registry slug)))

/-- C5: a document whose front matter is malformed fails with a
`parseError` carrying its file's path; any document whose file is
unchanged computes the same result no matter what the other files hold
(failure isolation), and the build as a whole still completes, collecting
the per-document results. -/
theorem getStaticProps_failure_isolated (st st2 : Store) (registry : List Str)
    (badSlug otherSlug : Str) (c : Str)
    (hbad : st.files.lookup (resolvePath badSlug) = some c)
    (hmal : ∃ e, matter c = Except.error e)
    (hagree : st.files.lookup (resolvePath otherSlug) =
      st2.files.lookup (resolvePath otherSlug)) :
    getStaticProps (some st) registry badSlug =
      Except.error (GenError.parseError (resolvePath badSlug)) ∧
    getStaticProps (some st) registry otherSlug =
      getStaticProps (some st2) registry otherSlug ∧
    ∃ results, buildAll (some st) registry = Except.ok results := by
  obtain ⟨e, he⟩ := hmal
  refine ⟨?_, ?_, ⟨_, rfl⟩⟩
  · simp only [getStaticProps, hbad, he]
  · simp only [getStaticProps, hagree]

/-- A two-file demonstration store: `a.mdx` holds a plain body and
`b.mdx` holds an unterminated front-matter block. -/
def demoStore : Store :=
  ⟨[("a.mdx".data, "hello world".data), ("b.mdx".data, "---\ntitle: x".data)]⟩

/-- Witness for C5 on `demoStore`: the document `b` fails with a
`parseError` naming `b.mdx`, the document `a` is unaffected, and the build
completes. -/
theorem getStaticProps_failure_isolated_witness :
    (demoStore.files.lookup (resolvePath "b".data) = some "---\ntitle: x".data ∧
      matter "---\ntitle: x".data = Except.error ParseError.unterminated) ∧
    (getStaticProps (some demoStore) [] "b".data =
        Except.error (GenError.parseError (resolvePath "b".data)) ∧
      getStaticProps (some demoStore) [] "a".data =
        getStaticProps (some demoStore) [] "a".data ∧
      ∃ results, buildAll (some demoStore) [] = Except.ok results) :=
  ⟨⟨by decide, by decide⟩,
    getStaticProps_failure_isolated demoStore demoStore [] "b".data "a".data
      "---\ntitle: x".data (by decide) ⟨ParseError.unterminated, by decide⟩ rfl⟩
